import Mathlib

/-!
Shallow embedding of `src/main.py` (Occlusmart backend): an in-memory list of
scan records (`scans_db`) mirrored to a single JSON snapshot file
(`scans_db.json`), with create (`analyze_occlusion`), list (`get_scans`),
get (`get_scan`) and delete (`delete_scan`) operations.

Modelling conventions:
- JSON values are modelled structurally (inductive `Json`); the textual
  serialization layer of Python's `json` module is abstracted: the snapshot
  file state (`DbFile`) either is absent, holds a parsed JSON value, or is
  `corrupt` (exists but its text does not parse, making `json.load` raise
  `JSONDecodeError`).
- Every record that the code ever appends to `scans_db` is the dict literal
  built in `analyze_occlusion` (main.py lines 182-190), which always has the
  seven keys of `ScanRecord`; the collection is therefore typed as
  `List ScanData` and Python's `scan.get(key)` on those keys is field access.
- External effects (clock, uuid, request data, filesystem success/failure)
  are passed as explicit parameters; a failed file write is modelled by a
  Boolean oracle (`CreateFs`, or the `writeOk` argument), with the failure
  raising an exception exactly where the Python `open`/`json.dump`/
  `shutil.copyfileobj` call sits.
- Exceptions become `Except Err`; a handler's post-state is returned next to
  the result, so a raised exception's side effects stay observable.
-/

/-- Structural JSON values, as produced/consumed by Python's `json` module.
Numbers are modelled as rationals (JSON numbers are decimal literals). -/
inductive Json where
  | null : Json
  | bool : Bool → Json
  | num : Rat → Json
  | str : String → Json
  | arr : List Json → Json
  | obj : List (String × Json) → Json

/-- The `ScanResult` record shape of main.py lines 13-20: exactly the keys of
the dict literal assembled in `analyze_occlusion` (lines 182-190). -/
structure ScanData where
  id : String
  patient_id : String
  pre_op_path : String
  during_op_path : String
  result_path : String
  created_at : String
  analysis_results : Json

/-- Error outcomes of the handlers, abstracting HTTP/exception details:
`notFound` is `HTTPException(404, "Scan not found")`; `analysisFailure` is
the catch-all `HTTPException(500, "An error occurred during analysis: ...")`
of `analyze_occlusion`; `storage` is an uncaught `OSError` from a snapshot
file write; `persistence` is the uncaught `json.JSONDecodeError` raised by
`load_scans_from_db` at startup (the spec's `PersistenceError`). -/
inductive Err where
  | notFound : Err
  | analysisFailure : Err
  | storage : Err
  | persistence : Err
deriving Repr, DecidableEq

/-- Key lookup in a JSON object's field list (Python `dict` access on the
dicts produced by `json.load`). -/
def jlookup : List (String × Json) → String → Option Json
  | [], _ => none
  | (k, v) :: rest, key => if k == key then some v else jlookup rest key

/-- The JSON object that `json.dump` writes for one record: the dict literal
of main.py lines 182-190, keys in source order. -/
def ScanData.toJson (s : ScanData) : Json :=
  .obj [("id", .str s.id), ("patient_id", .str s.patient_id),
        ("pre_op_path", .str s.pre_op_path),
        ("during_op_path", .str s.during_op_path),
        ("result_path", .str s.result_path),
        ("created_at", .str s.created_at),
        ("analysis_results", s.analysis_results)]

/-- Reading a record back out of its snapshot JSON object: the observation
function used to state that a reloaded snapshot denotes the same records. -/
def ScanData.fromJson (j : Json) : Option ScanData :=
  match j with
  | .obj fields =>
    match jlookup fields "id", jlookup fields "patient_id",
          jlookup fields "pre_op_path", jlookup fields "during_op_path",
          jlookup fields "result_path", jlookup fields "created_at",
          jlookup fields "analysis_results" with
    | some (.str i), some (.str p), some (.str a), some (.str b),
      some (.str c), some (.str d), some ar => some ⟨i, p, a, b, c, d, ar⟩
    | _, _, _, _, _, _, _ => none
  | _ => none

/-- The JSON array `json.dump(scans_db, f)` writes: the whole collection. -/
def encodeDb (db : List ScanData) : Json :=
  .arr (db.map ScanData.toJson)

/-- Reading a whole snapshot array back as records. -/
def decodeDb : Json → Option (List ScanData)
  | .arr js => js.mapM ScanData.fromJson
  | _ => none

/-- State of the durable snapshot file `scans_db.json`. -/
inductive DbFile where
  | absent : DbFile
  | corrupt : DbFile
  | snapshot : Json → DbFile

/-- The snapshot-file state after a successful full rewrite
(`json.dump(scans_db, f)` with `open('scans_db.json', 'w')`),
main.py lines 29-30 and 117-118. -/
def writeDbFile (db : List ScanData) : DbFile :=
  .snapshot (encodeDb db)

/-- `load_scans_from_db` (main.py lines 32-37): if `scans_db.json` exists it
is parsed with `json.load` — a file that fails to parse raises
`json.JSONDecodeError`, which is uncaught and aborts startup (line 60 runs at
module import); if the file is absent the function returns `[]`. -/
def load_scans_from_db : DbFile → Except Err Json
  | .absent => .ok (.arr [])
  | .corrupt => .error .persistence
  | .snapshot j => .ok j

/-- The process state the handlers touch: the global `scans_db` list and the
snapshot file. -/
structure ServerState where
  scans_db : List ScanData
  dbFile : DbFile

/-- `save_scan_to_db` (main.py lines 25-30): append the record to the global
list, then rewrite the snapshot file. If the rewrite raises (`writeOk =
false`, e.g. `open` fails with `OSError`), the append has already happened
and is not undone; the file keeps its previous state. -/
def save_scan_to_db (scan : ScanData) (st : ServerState) (writeOk : Bool) :
    Except Err Unit × ServerState :=
  let db1 := st.scans_db ++ [scan]
  if writeOk then (.ok (), ⟨db1, writeDbFile db1⟩)
  else (.error .storage, ⟨db1, st.dbFile⟩)

/-- `get_scans` (main.py lines 71-78). `patient_id` is an optional query
parameter; the guard is Python truthiness (`if patient_id:`), so both `None`
and the empty string fall through to `return scans_db`. -/
def get_scans (st : ServerState) (patient_id : Option String) : List ScanData :=
  match patient_id with
  | some p => if p = "" then st.scans_db
              else st.scans_db.filter (fun s => s.patient_id == p)
  | none => st.scans_db

/-- Fixed URL prefix of main.py line 91. -/
def base_url : String := "http://your-server-ip:8000"

/-- The response dict of `get_scan`: a `scan.copy()` of the stored record plus
the three URL fields added on main.py lines 94-99. The `result_url` guard
(`if 'result_path' in scan_data`) always fires, since every record the code
builds carries the key. -/
structure ScanView where
  base : ScanData
  pre_op_url : String
  during_op_url : String
  result_url : String

/-- `get_scan` (main.py lines 80-102): scan `scans_db` in order for the first
record whose `id` equals `scan_id`; return a copy augmented with URLs, or
raise 404. The handler performs no assignment, so the state passes through
unchanged. -/
def get_scan (scan_id : String) (st : ServerState) :
    Except Err ScanView × ServerState :=
  match st.scans_db.find? (fun s => s.id == scan_id) with
  | some s =>
    (.ok ⟨s, base_url ++ "/uploads/" ++ s.pre_op_path,
          base_url ++ "/uploads/" ++ s.during_op_path,
          base_url ++ "/uploads/" ++ s.result_path⟩, st)
  | none => (.error .notFound, st)

/-- The success body of `delete_scan` (main.py line 120). -/
def deleteSuccessMsg : Json :=
  .obj [("status", .str "success"), ("message", .str "Scan deleted")]

/-- `delete_scan` (main.py lines 104-120): reassign `scans_db` to the list
without the matching record; if nothing was removed raise 404 (before any
file write); otherwise rewrite the snapshot. A failing rewrite (`writeOk =
false`) raises an uncaught `OSError` after the in-memory reassignment, which
is not undone; the file keeps its previous state. -/
def delete_scan (scan_id : String) (st : ServerState) (writeOk : Bool) :
    Except Err Json × ServerState :=
  let db1 := st.scans_db.filter (fun s => s.id != scan_id)
  if db1.length = st.scans_db.length then (.error .notFound, ⟨db1, st.dbFile⟩)
  else if writeOk then (.ok deleteSuccessMsg, ⟨db1, writeDbFile db1⟩)
  else (.error .storage, ⟨db1, st.dbFile⟩)

/-- Helper for `splitext_ext`, walking the REVERSED basename from the end of
the name toward the front. Mirrors CPython's `posixpath.splitext`: the
extension starts at the last `.` of the basename, provided some character of
the basename strictly before that dot is not itself a dot (so `.bashrc` and
`..py` have no extension). Returns the reversed extension (dot included). -/
def revExt : List Char → Option (List Char)
  | [] => none
  | c :: rest =>
    if c == '.' then
      if rest.any (fun d => d != '.') then some [c] else none
    else (revExt rest).map (fun e => c :: e)

/-- `os.path.splitext(p)[1]` for POSIX paths: the extension of the basename
(the part of `p` after its last `/`), empty when there is none. -/
def splitext_ext (p : String) : String :=
  match revExt (p.data.reverse.takeWhile (fun c => c != '/')) with
  | none => ""
  | some re => String.mk re.reverse

/-- The extension chosen on main.py lines 140-141:
`os.path.splitext(f)[1] if f else '.jpg'` — the `'.jpg'` default applies
exactly when the filename is falsy (`None` or `""`), by Python truthiness. -/
def pyExt : Option String → String
  | none => ".jpg"
  | some f => if f = "" then ".jpg" else splitext_ext f

/-- An uploaded file as the handler sees it: the (optional) original client
filename and the bytes of the source stream. -/
structure UploadFile where
  filename : Option String
  content : List Nat

/-- Success/failure oracle for the four filesystem writes performed by
`analyze_occlusion` after the scan directory is allocated: the two upload
writes (lines 150-154), the analysis-artifact write (lines 177-178), and the
snapshot rewrite inside `save_scan_to_db` (lines 29-30). `false` means the
corresponding Python call raises. -/
structure CreateFs where
  preOpWriteOk : Bool
  duringOpWriteOk : Bool
  artifactWriteOk : Bool
  dbWriteOk : Bool

/-- All four writes succeed. -/
def allOk : CreateFs := ⟨true, true, true, true⟩

/-- The mock analysis result of main.py lines 158-173. -/
def mock_analysis (scan_id : String) : Json :=
  .obj [("status", .str "success"), ("scan_id", .str scan_id),
        ("analysis", .obj
          [("occlusion_score", .num (85/100 : Rat)),
           ("alignment_score", .num (92/100 : Rat)),
           ("findings", .arr
             [.str "Good overall occlusion",
              .str "Slight misalignment on lower right molars"]),
           ("recommendations", .arr
             [.str "Consider minor adjustment to lower right molars",
              .str "Schedule follow-up in 2 weeks"])])]

/-- The record dict assembled on main.py lines 182-190: path fields are the
scan-directory paths made relative to `UPLOAD_DIR`
(`str(path.relative_to(UPLOAD_DIR))` = `scan_id/<filename>`), filenames are
`pre_op`/`during_op` plus the chosen extension (lines 143-144), and
`result_path` is `scan_id/analysis_results.json` (line 176). -/
def scanRecordOf (scan_id patient_id : String) (pre during : UploadFile)
    (now : String) : ScanData :=
  ⟨scan_id, patient_id,
   scan_id ++ "/" ++ ("pre_op" ++ pyExt pre.filename),
   scan_id ++ "/" ++ ("during_op" ++ pyExt during.filename),
   scan_id ++ "/" ++ "analysis_results.json",
   now, mock_analysis scan_id⟩

/-- Observable outcome of one `analyze_occlusion` call: the handler result,
the post-call `scans_db` and snapshot file, and the contents of the two
upload files in the scan directory (`none` = absent). -/
structure CreateOutcome where
  result : Except Err Json
  scans_db : List ScanData
  dbFile : DbFile
  preOpFile : Option (List Nat)
  duringOpFile : Option (List Nat)

/-- `analyze_occlusion` (main.py lines 122-207), from the point after the
scan directory is allocated (line 137; `scan_id` = the fresh `uuid4`, `now` =
`datetime.now(timezone.utc).isoformat()`, both external inputs).
Control flow of the source:
- write the pre-op upload, then the during-op upload (lines 150-154); a
  failed write raises into the `except` block, which unlinks whichever of
  the two upload paths exists (lines 199-202) — the partially written file
  of the failed step and any fully written earlier upload — and re-raises as
  HTTP 500, so in every failure branch both upload files end up absent and
  neither `scans_db` nor the snapshot was touched;
- the analysis is the pure mock dict (lines 158-173, cannot fail) and the
  artifact write (lines 177-178) precedes `save_scan_to_db`;
- `save_scan_to_db` (line 193) appends the record and then rewrites the
  snapshot; if that rewrite raises, the `except` block again unlinks the two
  upload files and returns HTTP 500 — but the append is not undone.
No emptiness or readability check is made on the streams:
`shutil.copyfileobj` of an empty stream writes a zero-byte file and the
handler proceeds normally, so the stream contents never affect control flow. -/
def analyze_occlusion (st : ServerState) (scan_id : String)
    (pre_op_image during_op_image : UploadFile) (patient_id : String)
    (now : String) (fs : CreateFs) : CreateOutcome :=
  if fs.preOpWriteOk then
    if fs.duringOpWriteOk then
      if fs.artifactWriteOk then
        let scan_data := scanRecordOf scan_id patient_id pre_op_image
          during_op_image now
        match save_scan_to_db scan_data st fs.dbWriteOk with
        | (.ok _, st1) =>
          ⟨.ok (mock_analysis scan_id), st1.scans_db, st1.dbFile,
           some pre_op_image.content, some during_op_image.content⟩
        | (.error _, st1) =>
          ⟨.error .analysisFailure, st1.scans_db, st1.dbFile, none, none⟩
      else ⟨.error .analysisFailure, st.scans_db, st.dbFile, none, none⟩
    else ⟨.error .analysisFailure, st.scans_db, st.dbFile, none, none⟩
  else ⟨.error .analysisFailure, st.scans_db, st.dbFile, none, none⟩

/-- A concrete record for witnesses and counterexamples. -/
def r0 : ScanData :=
  ⟨"S1", "P1", "S1/pre_op.jpg", "S1/during_op.jpg",
   "S1/analysis_results.json", "2026-01-01T00:00:00+00:00", .obj []⟩

/-- A store holding `r0`, its snapshot freshly rewritten. -/
def st0 : ServerState := ⟨[r0], writeDbFile [r0]⟩

/-- An empty store whose snapshot was durably written at entry. -/
def stEmpty : ServerState := ⟨[], writeDbFile []⟩

/-- A concrete during-op upload. -/
def upB : UploadFile := ⟨some "b.png", [3, 4]⟩

/-- A concrete pre-op upload. -/
def upA : UploadFile := ⟨some "a.jpg", [1, 2]⟩

/-- A concrete creation timestamp. -/
def t0 : String := "2026-01-01T00:00:01+00:00"

/-- A filesystem oracle where only the during-op upload write fails. -/
def fsDuringFail : CreateFs := ⟨true, false, true, true⟩

/-- An upload whose source stream is empty. -/
def upEmpty : UploadFile := ⟨some "empty.jpg", []⟩

/-- An upload whose original filename has no extension. -/
def upNoExt : UploadFile := ⟨some "photo", [1]⟩

theorem fromJson_toJson (s : ScanData) :
    ScanData.fromJson s.toJson = some s := rfl

theorem decode_encode (db : List ScanData) : decodeDb (encodeDb db) = some db := by
  induction db with
  | nil => rfl
  | cons s t ih =>
    simp only [encodeDb, decodeDb] at ih ⊢
    rw [List.map_cons, List.mapM_cons, fromJson_toJson, ih]
    rfl

theorem find_filter_ne (db : List ScanData) (sid : String) :
    (db.filter (fun s => s.id != sid)).find? (fun s => s.id == sid) = none := by
  rw [List.find?_eq_none]
  intro x hx
  have h2 := (List.mem_filter.mp hx).2
  simp only [bne_iff_ne, ne_eq] at h2
  simp [h2]

/-- Claim C1: if the durable snapshot file exists but fails to parse at
startup, initialization halts with the persistence error (the uncaught
`json.JSONDecodeError`) rather than silently starting from an empty
collection; if the snapshot file is absent, initialization yields the empty
collection. -/
theorem c1_corrupt_snapshot_halts :
    load_scans_from_db DbFile.corrupt = .error Err.persistence ∧
    load_scans_from_db DbFile.absent = .ok (encodeDb []) ∧
    decodeDb (encodeDb []) = some ([] : List ScanData) :=
  ⟨rfl, rfl, rfl⟩

/-- Claim C5: round-trip durability — for every collection, a successful
snapshot rewrite (`writeDbFile`, the write both mutating operations perform,
as witnessed by the third conjunct) followed by a reload yields a snapshot
value that denotes exactly the original records, in order. -/
theorem c5_snapshot_roundtrip (db : List ScanData) :
    load_scans_from_db (writeDbFile db) = .ok (encodeDb db) ∧
    decodeDb (encodeDb db) = some db ∧
    (∀ scan st, (save_scan_to_db scan st true).2.dbFile
      = writeDbFile (save_scan_to_db scan st true).2.scans_db) :=
  ⟨rfl, decode_encode db, fun _ _ => rfl⟩

/-- Claim C4 (amended): for every NON-EMPTY patient identifier `X`,
`get_scans` with `patient_id = X` returns exactly the records whose
`patient_id` equals `X`, in order, and `get_scans` with no argument returns
the whole collection in order. (The unamended claim fails at `X = ""`:
Python's `if patient_id:` treats the empty string as absent.) -/
theorem c4_list_filters_by_patient (st : ServerState) (X : String)
    (h : X ≠ "") :
    get_scans st (some X) = st.scans_db.filter (fun s => s.patient_id == X) ∧
    get_scans st none = st.scans_db := by
  refine ⟨?_, rfl⟩
  simp [get_scans, h]

theorem c4_list_filters_by_patient_witness :
    ("P1" : String) ≠ "" ∧
    (get_scans st0 (some "P1")
        = st0.scans_db.filter (fun s => s.patient_id == "P1") ∧
     get_scans st0 none = st0.scans_db) :=
  ⟨by decide, c4_list_filters_by_patient st0 "P1" (by decide)⟩

/-- Counterexample to claim C4 as stated: with one record whose `patient_id`
is `"P1"`, `get_scans` with `patient_id = ""` returns that record (the falsy
guard skips the filter), while the subset with `patient_id = ""` is empty. -/
theorem c4_empty_patient_counterexample :
    get_scans st0 (some "")
      ≠ st0.scans_db.filter (fun s => s.patient_id == "") ∧
    (get_scans st0 (some "")).length = 1 ∧
    (st0.scans_db.filter (fun s => s.patient_id == "")).length = 0 := by
  refine ⟨fun h => absurd (congrArg List.length h) (by decide), rfl, rfl⟩

/-- Claim C7: deleting an identifier no record has fails with the not-found
error and leaves the store — in-memory collection and snapshot file alike —
unchanged (the 404 is raised before any file write). -/
theorem c7_delete_missing_id (st : ServerState) (sid : String) (w : Bool)
    (h : ∀ s ∈ st.scans_db, s.id ≠ sid) :
    delete_scan sid st w = (.error Err.notFound, st) := by
  have hf : st.scans_db.filter (fun s => s.id != sid) = st.scans_db :=
    List.filter_eq_self.mpr (fun s hs => bne_iff_ne.mpr (h s hs))
  cases st with
  | mk db file => simp only [delete_scan] at *; rw [hf]; simp

theorem c7_delete_missing_id_witness :
    (∀ s ∈ st0.scans_db, s.id ≠ "S9") ∧
    delete_scan "S9" st0 true = (.error Err.notFound, st0) :=
  ⟨by decide, c7_delete_missing_id st0 "S9" true (by decide)⟩

/-- Claim C10: for an identifier present in the collection (first matching
record `r`), `get_scan` returns a copy of `r` augmented with the three URL
fields derived from the path fields, and leaves the state — hence every
stored record — unmodified. -/
theorem c10_get_returns_augmented_copy (st : ServerState) (sid : String)
    (r : ScanData) (h : st.scans_db.find? (fun s => s.id == sid) = some r) :
    get_scan sid st =
      (.ok ⟨r, base_url ++ "/uploads/" ++ r.pre_op_path,
            base_url ++ "/uploads/" ++ r.during_op_path,
            base_url ++ "/uploads/" ++ r.result_path⟩, st) := by
  simp [get_scan, h]

theorem c10_get_returns_augmented_copy_witness :
    st0.scans_db.find? (fun s => s.id == "S1") = some r0 ∧
    get_scan "S1" st0 =
      (.ok ⟨r0, base_url ++ "/uploads/" ++ r0.pre_op_path,
            base_url ++ "/uploads/" ++ r0.during_op_path,
            base_url ++ "/uploads/" ++ r0.result_path⟩, st0) :=
  ⟨rfl, c10_get_returns_augmented_copy st0 "S1" r0 rfl⟩

/-- Claim C6: after a successful `delete_scan sid`, with no intervening
create, `get_scan sid` fails with the not-found error. -/
theorem c6_get_after_delete (st : ServerState) (sid : String) (w : Bool)
    (v : Json) (h : (delete_scan sid st w).1 = .ok v) :
    (get_scan sid (delete_scan sid st w).2).1 = .error Err.notFound := by
  simp only [delete_scan] at h ⊢
  by_cases hl : (st.scans_db.filter (fun s => s.id != sid)).length
      = st.scans_db.length
  · simp [hl] at h
  · cases w with
    | false => simp [hl] at h
    | true =>
      have hfind := find_filter_ne st.scans_db sid
      simp [hl, get_scan, hfind, -List.find?_filter]

theorem c6_get_after_delete_witness :
    (delete_scan "S1" st0 true).1 = .ok deleteSuccessMsg ∧
    (get_scan "S1" (delete_scan "S1" st0 true).2).1 = .error Err.notFound :=
  ⟨rfl, c6_get_after_delete st0 "S1" true deleteSuccessMsg rfl⟩

/-- Claim C2 is violated by the code (evaluated at the failing input): with
one record `r0` and its snapshot durably written, `delete_scan "S1"` whose
snapshot rewrite fails raises, but the in-memory collection stays emptied
while the durable snapshot still denotes `[r0]` — no rollback; dually,
`save_scan_to_db` on a snapshot-write failure keeps the appended record in
memory while the durable snapshot still denotes `[]`. -/
theorem c2_snapshot_failure_keeps_mutation :
    delete_scan "S1" st0 false
      = (.error Err.storage, ⟨[], writeDbFile [r0]⟩) ∧
    save_scan_to_db r0 stEmpty false
      = (.error Err.storage, ⟨[r0], writeDbFile []⟩) ∧
    decodeDb (encodeDb [r0]) = some [r0] ∧
    decodeDb (encodeDb ([] : List ScanData)) = some [] :=
  ⟨rfl, rfl, rfl, rfl⟩

/-- Claim C3 (amended): if an upload write or the artifact write fails after
directory allocation, both upload files are removed, the failure propagates
as the 500 error, and neither the collection nor the snapshot changes; if
instead the snapshot rewrite inside record persistence fails, the failure
propagates and the upload files are removed, but the record has already been
appended to the in-memory collection (snapshot unchanged). -/
theorem c3_failed_create_cleanup (st : ServerState) (scanId pid now : String)
    (pre during : UploadFile) (fs : CreateFs)
    (h : fs.preOpWriteOk = false ∨ fs.duringOpWriteOk = false ∨
         fs.artifactWriteOk = false ∨ fs.dbWriteOk = false) :
    (analyze_occlusion st scanId pre during pid now fs).result
      = .error Err.analysisFailure ∧
    (analyze_occlusion st scanId pre during pid now fs).preOpFile = none ∧
    (analyze_occlusion st scanId pre during pid now fs).duringOpFile = none ∧
    (analyze_occlusion st scanId pre during pid now fs).dbFile = st.dbFile ∧
    (analyze_occlusion st scanId pre during pid now fs).scans_db
      = (if fs.preOpWriteOk && fs.duringOpWriteOk && fs.artifactWriteOk
         then st.scans_db ++ [scanRecordOf scanId pid pre during now]
         else st.scans_db) := by
  obtain ⟨po, duo, ao, dbo⟩ := fs
  cases po <;> cases duo <;> cases ao <;> cases dbo <;>
    simp_all [analyze_occlusion, save_scan_to_db]

theorem c3_failed_create_cleanup_witness :
    (fsDuringFail.preOpWriteOk = false ∨ fsDuringFail.duringOpWriteOk = false ∨
     fsDuringFail.artifactWriteOk = false ∨ fsDuringFail.dbWriteOk = false) ∧
    ((analyze_occlusion st0 "S2" upA upB "P1" t0 fsDuringFail).result
       = .error Err.analysisFailure ∧
     (analyze_occlusion st0 "S2" upA upB "P1" t0 fsDuringFail).preOpFile = none ∧
     (analyze_occlusion st0 "S2" upA upB "P1" t0 fsDuringFail).duringOpFile = none ∧
     (analyze_occlusion st0 "S2" upA upB "P1" t0 fsDuringFail).dbFile = st0.dbFile ∧
     (analyze_occlusion st0 "S2" upA upB "P1" t0 fsDuringFail).scans_db
       = (if fsDuringFail.preOpWriteOk && fsDuringFail.duringOpWriteOk
            && fsDuringFail.artifactWriteOk
          then st0.scans_db ++ [scanRecordOf "S2" "P1" upA upB t0]
          else st0.scans_db)) :=
  ⟨Or.inr (Or.inl rfl),
   c3_failed_create_cleanup st0 "S2" "P1" t0 upA upB fsDuringFail
     (Or.inr (Or.inl rfl))⟩

/-- Counterexample to claim C3 as stated: starting from an empty store whose
snapshot was just written, a create whose snapshot rewrite (the record
persistence step) fails does propagate the failure, yet the new record IS in
the in-memory collection and is visible to a subsequent list. -/
theorem c3_record_persisted_on_failure_counterexample :
    (analyze_occlusion stEmpty "S2" upA upB "P1" t0
        ⟨true, true, true, false⟩).result = .error Err.analysisFailure ∧
    ((analyze_occlusion stEmpty "S2" upA upB "P1" t0
        ⟨true, true, true, false⟩).scans_db).map ScanData.id = ["S2"] ∧
    (get_scans ⟨(analyze_occlusion stEmpty "S2" upA upB "P1" t0
        ⟨true, true, true, false⟩).scans_db,
        (analyze_occlusion stEmpty "S2" upA upB "P1" t0
        ⟨true, true, true, false⟩).dbFile⟩ none).map ScanData.id = ["S2"] ∧
    stEmpty.scans_db.length = 0 :=
  ⟨rfl, rfl, rfl, rfl⟩

/-- Claim C8 (amended): an empty uploaded source stream is accepted — the
upload write persists a zero-byte file, no validation error is raised, and
the create succeeds, appending its record. -/
theorem c8_empty_stream_accepted (st : ServerState)
    (scanId pid now : String) (preName : Option String)
    (during : UploadFile) :
    (analyze_occlusion st scanId ⟨preName, []⟩ during pid now allOk).result
      = .ok (mock_analysis scanId) ∧
    (analyze_occlusion st scanId ⟨preName, []⟩ during pid now allOk).preOpFile
      = some [] ∧
    (analyze_occlusion st scanId ⟨preName, []⟩ during pid now allOk).scans_db
      = st.scans_db ++ [scanRecordOf scanId pid ⟨preName, []⟩ during now] := by
  simp [analyze_occlusion, allOk, save_scan_to_db]

/-- Counterexample to claim C8 as stated: a create whose pre-op source
stream is empty succeeds (no validation failure) and persists a zero-byte
pre-op file. -/
theorem c8_empty_stream_counterexample :
    (analyze_occlusion stEmpty "S3" upEmpty upB "P1" t0 allOk).result
      = .ok (mock_analysis "S3") ∧
    (analyze_occlusion stEmpty "S3" upEmpty upB "P1" t0 allOk).preOpFile
      = some [] :=
  ⟨rfl, rfl⟩

theorem revExt_append_no_dot (erev brev : List Char)
    (he : ∀ c ∈ erev, (c == '.') = false)
    (hb : brev.any (fun d => d != '.') = true) :
    revExt (erev ++ '.' :: brev) = some (erev ++ ['.']) := by
  induction erev with
  | nil => simp [revExt, hb]
  | cons c cs ih =>
    have hc := he c (by simp)
    simp [revExt, hc, ih (fun d hd => he d (by simp [hd]))]

theorem pyExt_dotted_suffix (b e : String) (hb : ∃ c ∈ b.data, c ≠ '.')
    (hb2 : '/' ∉ b.data) (he2 : ∀ c ∈ e.data, c ≠ '.' ∧ c ≠ '/') :
    pyExt (some (b ++ "." ++ e)) = "." ++ e := by
  obtain ⟨bd⟩ := b
  obtain ⟨d⟩ := e
  have h1 : (String.mk bd ++ "." ++ String.mk d) = String.mk (bd ++ '.' :: d) := by
    show String.mk ((bd ++ ['.']) ++ d) = String.mk (bd ++ '.' :: d)
    rw [List.append_assoc]
    rfl
  have h2 : ("." ++ String.mk d) = String.mk ('.' :: d) := rfl
  rw [h1, h2]
  have hne : String.mk (bd ++ '.' :: d) ≠ "" := by
    intro hcon
    have hd : bd ++ '.' :: d = [] := congrArg String.data hcon
    simp at hd
  have hrev : (bd ++ '.' :: d).reverse = d.reverse ++ '.' :: bd.reverse := by
    simp
  have htw : (d.reverse ++ '.' :: bd.reverse).takeWhile (fun c => c != '/')
      = d.reverse ++ '.' :: bd.reverse := by
    rw [List.takeWhile_eq_self_iff]
    intro x hx
    simp only [List.mem_append, List.mem_cons, List.mem_reverse] at hx
    rcases hx with hx | hx | hx
    · exact bne_iff_ne.mpr (he2 x hx).2
    · subst hx; decide
    · exact bne_iff_ne.mpr (fun hcon => hb2 (hcon ▸ hx))
  have hdot : ∀ c ∈ d.reverse, (c == '.') = false := by
    intro c hc
    exact beq_eq_false_iff_ne.mpr (he2 c (List.mem_reverse.mp hc)).1
  have hany : bd.reverse.any (fun x => x != '.') = true := by
    obtain ⟨c, hc, hcne⟩ := hb
    exact List.any_eq_true.mpr ⟨c, List.mem_reverse.mpr hc, bne_iff_ne.mpr hcne⟩
  have h3 : splitext_ext (String.mk (bd ++ '.' :: d)) = String.mk ('.' :: d) := by
    unfold splitext_ext
    show (match revExt ((bd ++ '.' :: d).reverse.takeWhile (fun c => c != '/')) with
          | none => ""
          | some re => String.mk re.reverse) = String.mk ('.' :: d)
    rw [hrev, htw, revExt_append_no_dot d.reverse bd.reverse hdot hany]
    simp
  simp [pyExt, hne, h3]

/-- Claim C9 (amended): the stored on-disk filename is the logical name
(`pre_op`/`during_op`) plus the `os.path.splitext` extension of the original
filename; the `.jpg` default applies exactly when the original filename is
absent or empty (Python truthiness), NOT when a non-empty filename merely
lacks an extension; a filename with a genuine dotted extension keeps it; the
recorded path fields are `scan_id/<filename>`, relative to the upload root.
The last appended record of a successful create is the one built by
`scanRecordOf`, whose path fields have exactly this shape. -/
theorem c9_upload_filenames (st : ServerState) (scanId pid now : String)
    (pre during : UploadFile) (b e : String)
    (hb : ∃ c ∈ b.data, c ≠ '.') (hb2 : '/' ∉ b.data)
    (he2 : ∀ c ∈ e.data, c ≠ '.' ∧ c ≠ '/') :
    (analyze_occlusion st scanId pre during pid now allOk).scans_db.getLast?
      = some (scanRecordOf scanId pid pre during now) ∧
    (scanRecordOf scanId pid pre during now).pre_op_path
      = scanId ++ "/" ++ ("pre_op" ++ pyExt pre.filename) ∧
    (scanRecordOf scanId pid pre during now).during_op_path
      = scanId ++ "/" ++ ("during_op" ++ pyExt during.filename) ∧
    (scanRecordOf scanId pid pre during now).result_path
      = scanId ++ "/" ++ "analysis_results.json" ∧
    pyExt none = ".jpg" ∧
    pyExt (some "") = ".jpg" ∧
    pyExt (some (b ++ "." ++ e)) = "." ++ e := by
  refine ⟨?_, rfl, rfl, rfl, rfl, rfl, pyExt_dotted_suffix b e hb hb2 he2⟩
  simp [analyze_occlusion, allOk, save_scan_to_db]

theorem c9_upload_filenames_witness :
    (∃ c ∈ ("photo" : String).data, c ≠ '.') ∧
    ('/' ∉ ("photo" : String).data) ∧
    (∀ c ∈ ("png" : String).data, c ≠ '.' ∧ c ≠ '/') ∧
    ((analyze_occlusion st0 "S2" upA upB "P1" t0 allOk).scans_db.getLast?
       = some (scanRecordOf "S2" "P1" upA upB t0) ∧
     (scanRecordOf "S2" "P1" upA upB t0).pre_op_path
       = "S2" ++ "/" ++ ("pre_op" ++ pyExt upA.filename) ∧
     (scanRecordOf "S2" "P1" upA upB t0).during_op_path
       = "S2" ++ "/" ++ ("during_op" ++ pyExt upB.filename) ∧
     (scanRecordOf "S2" "P1" upA upB t0).result_path
       = "S2" ++ "/" ++ "analysis_results.json" ∧
     pyExt none = ".jpg" ∧
     pyExt (some "") = ".jpg" ∧
     pyExt (some ("photo" ++ "." ++ "png")) = "." ++ "png") :=
  ⟨by decide, by decide, by decide,
   c9_upload_filenames st0 "S2" "P1" t0 upA upB "photo" "png"
     (by decide) (by decide) (by decide)⟩

/-- Counterexample to claim C9 as stated: an original filename `"photo"` is
non-empty but has no extension, and the stored filename is plain `pre_op`
with no extension at all — not `pre_op.jpg`, as the fixed-default reading of
the claim would require. -/
theorem c9_no_extension_counterexample :
    ((analyze_occlusion stEmpty "S1" upNoExt upB "P1" t0 allOk).scans_db).map
        ScanData.pre_op_path = ["S1/pre_op"] ∧
    pyExt upNoExt.filename = "" ∧
    ("S1/pre_op" : String) ≠ "S1/pre_op.jpg" :=
  ⟨rfl, rfl, by decide⟩
